import Mathlib

/-!
Shallow embedding of the maps-b2b credit-ledger backend.

The relational tables of `shared/schema.ts` (`users`, `credit_transactions`,
`searches`) become lists of records; `server/storage.ts`'s `DatabaseStorage`
methods become pure state-passing functions, with the database clock
(`new Date()`) and generated row ids (`gen_random_uuid()`) passed in
explicitly.  The HTTP handlers of `registerRoutes` (shared/config.ts) are
embedded as functions from a parsed request to a response plus the new state.
Timestamps are modelled as natural numbers, JavaScript numbers holding
integer column values as `Int`.
-/

inductive Role where
  | admin
  | regular
deriving Repr, DecidableEq

inductive Status where
  | active
  | blocked
deriving Repr, DecidableEq

/-- A row of the `users` table (schema.ts `users`). -/
structure User where
  id : String
  email : String
  password : String
  firstName : Option String
  lastName : Option String
  profileImageUrl : Option String
  role : Role
  status : Status
  credits : Int
  creditLimit : Int
  createdAt : Nat
  updatedAt : Nat
deriving Repr, DecidableEq

/-- A row of the `credit_transactions` table (schema.ts `creditTransactions`). -/
structure CreditTransaction where
  id : String
  userId : String
  amount : Int
  previousBalance : Int
  newBalance : Int
  note : Option String
  adminId : Option String
  createdAt : Nat
deriving Repr, DecidableEq

/-- A row of the `searches` table (schema.ts `searches`). -/
structure Search where
  id : String
  searchId : String
  userId : String
  address : String
  segment : String
  creditsUsed : Int
  finalizado : Bool
  createdAt : Nat
deriving Repr, DecidableEq

/-- The relational state the claims touch: the three tables, each a list of
rows in insertion (chronological) order. -/
structure DBState where
  users : List User
  creditTransactions : List CreditTransaction
  searches : List Search
deriving Repr, DecidableEq

/-- `UPDATE users SET ... WHERE id = uid`: rewrite every matching row. -/
def updateWhere (uid : String) (f : User → User) (l : List User) : List User :=
  l.map fun u => if u.id = uid then f u else u

/-- `DatabaseStorage.getUser`: `SELECT * FROM users WHERE id = uid`, first row. -/
def getUser (s : DBState) (uid : String) : Option User :=
  s.users.find? fun u => u.id == uid

/-- `DatabaseStorage.getUserByEmail`: first row with exactly this email
(varchar equality, case-sensitive). -/
def getUserByEmail (s : DBState) (email : String) : Option User :=
  s.users.find? fun u => u.email == email

/-- `DatabaseStorage.getRegularUsers`: rows with role `regular`. -/
def getRegularUsers (s : DBState) : List User :=
  s.users.filter fun u => decide (u.role = Role.regular)

/-- Parsed body accepted by `createUserSchema` (schema.ts): email, password,
first and last name required; role defaults to regular at parse time;
credits optional. -/
structure CreateUserData where
  email : String
  password : String
  firstName : String
  lastName : String
  role : Role
  credits : Option Int
deriving Repr, DecidableEq

/-- `DatabaseStorage.createUser`: INSERT the parsed data, the remaining
columns taking their schema defaults (`status 'active'`, `credits 0`,
`creditLimit 100`, generated id, `now()` timestamps). -/
def createUser (s : DBState) (d : CreateUserData) (newId : String) (now : Nat) :
    User × DBState :=
  let u : User :=
    { id := newId
      email := d.email
      password := d.password
      firstName := some d.firstName
      lastName := some d.lastName
      profileImageUrl := none
      role := d.role
      status := Status.active
      credits := d.credits.getD 0
      creditLimit := 100
      createdAt := now
      updatedAt := now }
  (u, { s with users := s.users ++ [u] })

/-- Parsed body accepted by `updateUserSchema` (schema.ts): every user column
except id, password and the timestamps, each optional. -/
structure UpdateUserData where
  email : Option String
  firstName : Option String
  lastName : Option String
  profileImageUrl : Option String
  role : Option Role
  status : Option Status
  credits : Option Int
  creditLimit : Option Int
deriving Repr, DecidableEq

/-- The row rewrite performed by `updateUser`'s
`SET { ...data, updatedAt: new Date() }`: provided columns overwrite, absent
ones keep their value, `updatedAt` always refreshed. -/
def applyUpdateUser (d : UpdateUserData) (now : Nat) (u : User) : User :=
  { u with
    email := d.email.getD u.email
    firstName := match d.firstName with | some v => some v | none => u.firstName
    lastName := match d.lastName with | some v => some v | none => u.lastName
    profileImageUrl := match d.profileImageUrl with | some v => some v | none => u.profileImageUrl
    role := d.role.getD u.role
    status := d.status.getD u.status
    credits := d.credits.getD u.credits
    creditLimit := d.creditLimit.getD u.creditLimit
    updatedAt := now }

/-- `DatabaseStorage.updateUser`. -/
def updateUser (s : DBState) (uid : String) (d : UpdateUserData) (now : Nat) :
    Option User × DBState :=
  let l := updateWhere uid (applyUpdateUser d now) s.users
  (l.find? (fun u => u.id == uid), { s with users := l })

/-- `DatabaseStorage.updateUserPassword`. -/
def updateUserPassword (s : DBState) (uid : String) (hashed : String) (now : Nat) :
    DBState :=
  { s with users := updateWhere uid (fun u => { u with password := hashed, updatedAt := now }) s.users }

/-- The aggregate returned by `DatabaseStorage.getUserStats`. -/
structure UserStats where
  totalUsers : Nat
  activeUsers : Nat
  blockedUsers : Nat
  totalCredits : Int
deriving Repr, DecidableEq

/-- `DatabaseStorage.getUserStats`: one aggregate over rows with
`role = 'regular'`; `count(*)`, filtered counts by status, and
`sum(credits)` with SQL's NULL sum over the empty set coerced to 0 by
`Number(stats.totalCredits) || 0`. -/
def getUserStats (s : DBState) : UserStats :=
  let regs := s.users.filter fun u => decide (u.role = Role.regular)
  { totalUsers := regs.length
    activeUsers := (regs.filter fun u => decide (u.status = Status.active)).length
    blockedUsers := (regs.filter fun u => decide (u.status = Status.blocked)).length
    totalCredits := regs.foldl (fun acc u => acc + u.credits) 0 }

/-- `DatabaseStorage.updateUserCredits`: read the user (throwing
"User not found" when absent), clamp the new balance at zero with
`Math.max(0, user.credits + amount)`, UPDATE the balance, then INSERT one
audit row recording the pre-read balance and the requested amount.  The
returned row is the UPDATE's `returning()` head. -/
def updateUserCredits (s : DBState) (uid : String) (amount : Int)
    (adminId : String) (note : Option String) (now : Nat) (txnId : String) :
    Except String (Option User × DBState) :=
  match getUser s uid with
  | none => Except.error "User not found"
  | some user =>
    let newBalance : Int := max 0 (user.credits + amount)
    let l := updateWhere uid (fun u => { u with credits := newBalance, updatedAt := now }) s.users
    let txn : CreditTransaction :=
      { id := txnId
        userId := uid
        amount := amount
        previousBalance := user.credits
        newBalance := newBalance
        note := note
        adminId := some adminId
        createdAt := now }
    Except.ok (l.find? (fun u => u.id == uid),
      { s with users := l, creditTransactions := s.creditTransactions ++ [txn] })

/-- `DatabaseStorage.updateUserCreditLimit`. -/
def updateUserCreditLimit (s : DBState) (uid : String) (limit : Int) (now : Nat) :
    Option User × DBState :=
  let l := updateWhere uid (fun u => { u with creditLimit := limit, updatedAt := now }) s.users
  (l.find? (fun u => u.id == uid), { s with users := l })

/-- `DatabaseStorage.getCreditTransactions` reads the user's audit rows; the
underlying audit-trail (insertion) order used by the replay claims. -/
def userTxns (s : DBState) (uid : String) : List CreditTransaction :=
  s.creditTransactions.filter fun t => t.userId == uid

/-- `DatabaseStorage.blockUser`. -/
def blockUser (s : DBState) (uid : String) (now : Nat) : Option User × DBState :=
  let l := updateWhere uid (fun u => { u with status := Status.blocked, updatedAt := now }) s.users
  (l.find? (fun u => u.id == uid), { s with users := l })

/-- `DatabaseStorage.unblockUser`. -/
def unblockUser (s : DBState) (uid : String) (now : Nat) : Option User × DBState :=
  let l := updateWhere uid (fun u => { u with status := Status.active, updatedAt := now }) s.users
  (l.find? (fun u => u.id == uid), { s with users := l })

/-- The body accepted by `insertSearchSchema` (schema.ts): every `searches`
column except the generated id and createdAt; `finalizado` has a column
default and is therefore optional in the insert schema, not omitted. -/
structure InsertSearch where
  searchId : String
  userId : String
  address : String
  segment : String
  creditsUsed : Int
  finalizado : Option Bool
deriving Repr, DecidableEq

/-- `DatabaseStorage.createSearch`: INSERT the given values; the column
default `false` applies only when the caller's data omits `finalizado`. -/
def createSearch (s : DBState) (d : InsertSearch) (newId : String) (now : Nat) :
    Search × DBState :=
  let row : Search :=
    { id := newId
      searchId := d.searchId
      userId := d.userId
      address := d.address
      segment := d.segment
      creditsUsed := d.creditsUsed
      finalizado := d.finalizado.getD false
      createdAt := now }
  (row, { s with searches := s.searches ++ [row] })

/-- A user as serialized in the route layer: `{ ...user, password: undefined }`
makes the password key optional in the JSON payload. -/
structure ApiUser where
  id : String
  email : String
  password : Option String
  firstName : Option String
  lastName : Option String
  profileImageUrl : Option String
  role : Role
  status : Status
  credits : Int
  creditLimit : Int
  createdAt : Nat
  updatedAt : Nat
deriving Repr, DecidableEq

/-- The spread-and-overwrite `{ ...user, password: undefined }` of the
handlers in shared/config.ts. -/
def sanitizeUser (u : User) : ApiUser :=
  { id := u.id
    email := u.email
    password := none
    firstName := u.firstName
    lastName := u.lastName
    profileImageUrl := u.profileImageUrl
    role := u.role
    status := u.status
    credits := u.credits
    creditLimit := u.creditLimit
    createdAt := u.createdAt
    updatedAt := u.updatedAt }

/-- An HTTP response of the user-management routes: a success JSON carrying
the user payload(s), or an error status with a message. -/
inductive Resp where
  | ok (code : Nat) (payload : List ApiUser)
  | err (code : Nat) (msg : String)
deriving Repr, DecidableEq

/-- GET /api/user (shared/config.ts): echo the authenticated user without the
password. -/
def getUserRoute (reqUser : User) : Resp :=
  Resp.ok 200 [sanitizeUser reqUser]

/-- POST /api/users (shared/config.ts): reject an already-registered email
with 400 "Email já cadastrado"; otherwise hash the password, insert, and
return the sanitized row with 201. -/
def createUserRoute (s : DBState) (d : CreateUserData) (hash : String → String)
    (newId : String) (now : Nat) : Resp × DBState :=
  match getUserByEmail s d.email with
  | some _ => (Resp.err 400 "Email já cadastrado", s)
  | none =>
    let r := createUser s { d with password := hash d.password } newId now
    (Resp.ok 201 [sanitizeUser r.1], r.2)

/-- GET /api/users (shared/config.ts): all regular users, sanitized. -/
def listUsersRoute (s : DBState) : Resp :=
  Resp.ok 200 ((getRegularUsers s).map sanitizeUser)

/-- PUT /api/users/:id (shared/config.ts). -/
def updateUserRoute (s : DBState) (uid : String) (d : UpdateUserData) (now : Nat) :
    Resp × DBState :=
  let r := updateUser s uid d now
  (Resp.ok 200 (r.1.toList.map sanitizeUser), r.2)

/-- POST /api/users/:id/credits (shared/config.ts): `amount` must be a number
(modelled `none` = non-numeric); a storage error is caught as a 500. -/
def creditsRoute (s : DBState) (uid : String) (amountVal : Option Int)
    (note : Option String) (adminId : String) (now : Nat) (txnId : String) :
    Resp × DBState :=
  match amountVal with
  | none => (Resp.err 400 "Amount must be a number", s)
  | some amount =>
    match updateUserCredits s uid amount adminId note now txnId with
    | Except.error _ => (Resp.err 500 "Falha ao atualizar créditos do usuário", s)
    | Except.ok r => (Resp.ok 200 (r.1.toList.map sanitizeUser), r.2)

/-- PATCH /api/users/:id/credit-limit (shared/config.ts): `limit` must be a
number (modelled `none` = non-numeric) and non-negative. -/
def creditLimitRoute (s : DBState) (uid : String) (limitVal : Option Int)
    (now : Nat) : Resp × DBState :=
  match limitVal with
  | none => (Resp.err 400 "Limite de créditos deve ser um número não negativo", s)
  | some l =>
    if l < 0 then
      (Resp.err 400 "Limite de créditos deve ser um número não negativo", s)
    else
      let r := updateUserCreditLimit s uid l now
      (Resp.ok 200 (r.1.toList.map sanitizeUser), r.2)

/-- POST /api/users/:id/block (shared/config.ts). -/
def blockRoute (s : DBState) (uid : String) (now : Nat) : Resp × DBState :=
  let r := blockUser s uid now
  (Resp.ok 200 (r.1.toList.map sanitizeUser), r.2)

/-- POST /api/users/:id/unblock (shared/config.ts). -/
def unblockRoute (s : DBState) (uid : String) (now : Nat) : Resp × DBState :=
  let r := unblockUser s uid now
  (Resp.ok 200 (r.1.toList.map sanitizeUser), r.2)

/-- Every user payload of a response lacks the password field. -/
def respSanitized : Resp → Prop
  | Resp.ok _ l => ∀ au ∈ l, au.password = none
  | Resp.err _ _ => True

/-- The first database statement issued by `updateUserCredits`:
`UPDATE users SET credits, updated_at WHERE id = uid`. -/
def creditUpdateStmt (uid : String) (newBalance : Int) (now : Nat) :
    DBState → DBState := fun s =>
  { s with users := updateWhere uid (fun u => { u with credits := newBalance, updatedAt := now }) s.users }

/-- The second database statement issued by `updateUserCredits`:
`INSERT INTO credit_transactions VALUES (...)`. -/
def creditInsertStmt (t : CreditTransaction) : DBState → DBState := fun s =>
  { s with creditTransactions := s.creditTransactions ++ [t] }

/-- The sequence of database statements `updateUserCredits` issues after its
initial SELECT.  The source awaits the UPDATE and the INSERT as two separate
calls with no `db.transaction` wrapper, so the sequence is the unit of
failure, not the pair. -/
def updateUserCreditsPlan (s : DBState) (uid : String) (amount : Int)
    (adminId : String) (note : Option String) (now : Nat) (txnId : String) :
    Option (List (DBState → DBState)) :=
  match getUser s uid with
  | none => none
  | some user =>
    let newBalance : Int := max 0 (user.credits + amount)
    some [creditUpdateStmt uid newBalance now,
          creditInsertStmt
            { id := txnId
              userId := uid
              amount := amount
              previousBalance := user.credits
              newBalance := newBalance
              note := note
              adminId := some adminId
              createdAt := now }]

/-- Run the first `k` statements of a plan: the state observable when
execution is interrupted after `k` statements. -/
def execSteps (stmts : List (DBState → DBState)) (k : Nat) (s : DBState) : DBState :=
  (stmts.take k).foldl (fun st f => f st) s

/-- Running a ledger-adjustment plan to completion yields exactly the state
`updateUserCredits` produces, tying the statement decomposition to the
storage function. -/
theorem updateUserCreditsPlan_complete (s : DBState) (uid : String) (amount : Int)
    (adminId : String) (note : Option String) (now : Nat) (txnId : String)
    (stmts : List (DBState → DBState))
    (h : updateUserCreditsPlan s uid amount adminId note now txnId = some stmts) :
    ∃ r s', updateUserCredits s uid amount adminId note now txnId = Except.ok (r, s') ∧
      execSteps stmts stmts.length s = s' := by
  unfold updateUserCreditsPlan at h
  unfold updateUserCredits
  cases hu : getUser s uid with
  | none => rw [hu] at h; exact absurd h (by simp)
  | some user =>
    rw [hu] at h
    simp only [Option.some.injEq] at h
    subst h
    refine ⟨_, _, rfl, ?_⟩
    simp [execSteps, creditUpdateStmt, creditInsertStmt]

/-- An `UPDATE ... WHERE id = uid` whose rewrite keeps the id column intact
rewrites exactly the row a prior `SELECT ... WHERE id = uid` returned. -/
theorem find?_updateWhere_of_found (uid : String) (f : User → User)
    (hf : ∀ y, (f y).id = y.id) :
    ∀ (l : List User) (u : User),
      l.find? (fun v => v.id == uid) = some u →
      (updateWhere uid f l).find? (fun v => v.id == uid) = some (f u) := by
  intro l
  induction l with
  | nil => intro u h; exact absurd h (by simp)
  | cons a t ih =>
    intro u h
    by_cases ha : a.id = uid
    · have hba : (a.id == uid) = true := by simp [ha]
      have hbfa : ((f a).id == uid) = true := by simp [hf a, ha]
      simp only [List.find?, hba] at h
      have hau : a = u := by simpa using h
      subst hau
      simp only [updateWhere, List.map_cons, if_pos ha, List.find?, hbfa]
    · have hba : (a.id == uid) = false := by simp [ha]
      simp only [List.find?, hba] at h
      have hrw : updateWhere uid f (a :: t) = a :: updateWhere uid f t := by
        simp [updateWhere, ha]
      rw [hrw]
      simp only [List.find?, hba]
      exact ih u h

/-- Closed form of `updateUserCredits` on an existing user: the returned row,
the rewritten users table, and the single appended audit row. -/
theorem updateUserCredits_ok (s : DBState) (uid : String) (amount : Int)
    (adminId : String) (note : Option String) (now : Nat) (txnId : String)
    (u : User) (hu : getUser s uid = some u) :
    updateUserCredits s uid amount adminId note now txnId =
      Except.ok (some { u with credits := max 0 (u.credits + amount), updatedAt := now },
        { users := updateWhere uid
            (fun v => { v with credits := max 0 (u.credits + amount), updatedAt := now }) s.users
          creditTransactions := s.creditTransactions ++
            [{ id := txnId
               userId := uid
               amount := amount
               previousBalance := u.credits
               newBalance := max 0 (u.credits + amount)
               note := note
               adminId := some adminId
               createdAt := now }]
          searches := s.searches }) := by
  have hu' : s.users.find? (fun v => v.id == uid) = some u := hu
  have hfind := find?_updateWhere_of_found uid
    (fun v => { v with credits := max 0 (u.credits + amount), updatedAt := now })
    (fun y => rfl) s.users u hu'
  unfold updateUserCredits
  rw [show getUser s uid = some u from hu]
  dsimp only
  rw [hfind]

/-- A concrete admin row used by the witnesses. -/
def demoAdmin : User :=
  { id := "a1"
    email := "admin@maps.local"
    password := "hash-a"
    firstName := some "Root"
    lastName := some "Admin"
    profileImageUrl := none
    role := Role.admin
    status := Status.active
    credits := 0
    creditLimit := 100
    createdAt := 0
    updatedAt := 0 }

/-- A concrete regular user with 50 credits used by the witnesses. -/
def demoUser : User :=
  { id := "u1"
    email := "u1@maps.local"
    password := "hash-u"
    firstName := some "Ana"
    lastName := some "Lima"
    profileImageUrl := none
    role := Role.regular
    status := Status.active
    credits := 50
    creditLimit := 100
    createdAt := 0
    updatedAt := 0 }

/-- A concrete state with one admin and one regular user and empty ledger. -/
def demoState : DBState :=
  { users := [demoAdmin, demoUser], creditTransactions := [], searches := [] }

/-- C1: applying a ledger adjustment to an existing user leaves the user's
credits at max(0, previousBalance + amount) and appends exactly one
CreditTransaction whose previousBalance is the balance read before the
adjustment, whose newBalance is the user's resulting credits, and whose
amount field stores the requested (unclamped) amount. -/
theorem applyAdjustment_clamps_and_audits (s : DBState) (uid : String)
    (amount : Int) (adminId : String) (note : Option String) (now : Nat)
    (txnId : String) (u : User) (hu : getUser s uid = some u) :
    ∃ s',
      updateUserCredits s uid amount adminId note now txnId =
        Except.ok (some { u with credits := max 0 (u.credits + amount), updatedAt := now }, s') ∧
      getUser s' uid = some { u with credits := max 0 (u.credits + amount), updatedAt := now } ∧
      s'.creditTransactions = s.creditTransactions ++
        [{ id := txnId
           userId := uid
           amount := amount
           previousBalance := u.credits
           newBalance := max 0 (u.credits + amount)
           note := note
           adminId := some adminId
           createdAt := now }] := by
  refine ⟨_, updateUserCredits_ok s uid amount adminId note now txnId u hu, ?_, rfl⟩
  exact find?_updateWhere_of_found uid
    (fun v => { v with credits := max 0 (u.credits + amount), updatedAt := now })
    (fun y => rfl) s.users u hu

/-- Witness for C1: the spec scenario, credits 50 adjusted by -80. -/
theorem applyAdjustment_clamps_and_audits_witness :
    getUser demoState "u1" = some demoUser ∧
    (∃ s',
      updateUserCredits demoState "u1" (-80) "a1" none 7 "t1" =
        Except.ok (some { demoUser with credits := max 0 (demoUser.credits + (-80)), updatedAt := 7 }, s') ∧
      getUser s' "u1" = some { demoUser with credits := max 0 (demoUser.credits + (-80)), updatedAt := 7 } ∧
      s'.creditTransactions = demoState.creditTransactions ++
        [{ id := "t1"
           userId := "u1"
           amount := -80
           previousBalance := demoUser.credits
           newBalance := max 0 (demoUser.credits + (-80))
           note := none
           adminId := some "a1"
           createdAt := 7 }]) :=
  ⟨by decide, applyAdjustment_clamps_and_audits demoState "u1" (-80) "a1" none 7 "t1" demoUser (by decide)⟩

/-- C7: blocking a user rewrites only that row's status and bookkeeping
timestamp; the credits value and the credit-transaction table (hence the
user's transaction sequence) are identical before and after. -/
theorem blockUser_preserves_ledger (s : DBState) (uid : String) (now : Nat)
    (u : User) (hu : getUser s uid = some u) :
    ∃ s',
      blockUser s uid now = (some { u with status := Status.blocked, updatedAt := now }, s') ∧
      getUser s' uid = some { u with status := Status.blocked, updatedAt := now } ∧
      s'.creditTransactions = s.creditTransactions ∧
      userTxns s' uid = userTxns s uid ∧
      s'.searches = s.searches := by
  have hfind := find?_updateWhere_of_found uid
    (fun v => { v with status := Status.blocked, updatedAt := now })
    (fun y => rfl) s.users u hu
  refine ⟨{ s with users := updateWhere uid (fun v => { v with status := Status.blocked, updatedAt := now }) s.users }, ?_, hfind, rfl, rfl, rfl⟩
  unfold blockUser
  dsimp only
  rw [hfind]

/-- Witness for C7 at a concrete user with 50 credits. -/
theorem blockUser_preserves_ledger_witness :
    getUser demoState "u1" = some demoUser ∧
    (∃ s',
      blockUser demoState "u1" 9 = (some { demoUser with status := Status.blocked, updatedAt := 9 }, s') ∧
      getUser s' "u1" = some { demoUser with status := Status.blocked, updatedAt := 9 } ∧
      s'.creditTransactions = demoState.creditTransactions ∧
      userTxns s' "u1" = userTxns demoState "u1" ∧
      s'.searches = demoState.searches) :=
  ⟨by decide, blockUser_preserves_ledger demoState "u1" 9 demoUser (by decide)⟩

/-- Counterexample for C6 as stated: with a non-negative limit the route does
not update only the creditLimit field — the stored row's updatedAt changes
from 0 to the write time 5 as well. -/
theorem setLimit_also_touches_updatedAt :
    getUser (creditLimitRoute demoState "u1" (some 60) 5).2 "u1" =
      some { demoUser with creditLimit := 60, updatedAt := 5 } ∧
    ({ demoUser with creditLimit := 60, updatedAt := 5 } : User) ≠
      { demoUser with creditLimit := 60 } :=
  ⟨by decide, by decide⟩

/-- C6 (amended): a non-numeric or negative limit yields a 400 error with the
state unchanged (so the creditLimit is untouched); a limit ≥ 0 succeeds and
rewrites only the user's creditLimit and updatedAt, leaving every other field
and the other tables unchanged. -/
theorem setLimit_validation (s : DBState) (uid : String) (lv : Option Int)
    (now : Nat) :
    (lv = none → creditLimitRoute s uid lv now =
      (Resp.err 400 "Limite de créditos deve ser um número não negativo", s)) ∧
    (∀ l, lv = some l → l < 0 → creditLimitRoute s uid lv now =
      (Resp.err 400 "Limite de créditos deve ser um número não negativo", s)) ∧
    (∀ l u, lv = some l → 0 ≤ l → getUser s uid = some u →
      ∃ s', creditLimitRoute s uid lv now =
          (Resp.ok 200 [sanitizeUser { u with creditLimit := l, updatedAt := now }], s') ∧
        getUser s' uid = some { u with creditLimit := l, updatedAt := now } ∧
        s'.creditTransactions = s.creditTransactions ∧
        s'.searches = s.searches) := by
  refine ⟨?_, ?_, ?_⟩
  · intro h; subst h; rfl
  · intro l h hl; subst h
    unfold creditLimitRoute
    dsimp only
    rw [if_pos hl]
  · intro l u h hl hu; subst h
    have hfind := find?_updateWhere_of_found uid
      (fun v => { v with creditLimit := l, updatedAt := now })
      (fun y => rfl) s.users u hu
    refine ⟨{ s with users := updateWhere uid (fun v => { v with creditLimit := l, updatedAt := now }) s.users }, ?_, hfind, rfl, rfl⟩
    unfold creditLimitRoute
    dsimp only
    rw [if_neg (not_lt.mpr hl)]
    unfold updateUserCreditLimit
    dsimp only
    rw [hfind]
    rfl

/-- Witness for C6 (amended): non-numeric, negative, and valid limits at a
concrete state. -/
theorem setLimit_validation_witness :
    creditLimitRoute demoState "u1" none 5 =
      (Resp.err 400 "Limite de créditos deve ser um número não negativo", demoState) ∧
    creditLimitRoute demoState "u1" (some (-3)) 5 =
      (Resp.err 400 "Limite de créditos deve ser um número não negativo", demoState) ∧
    (∃ s', creditLimitRoute demoState "u1" (some 60) 5 =
        (Resp.ok 200 [sanitizeUser { demoUser with creditLimit := 60, updatedAt := 5 }], s') ∧
      getUser s' "u1" = some { demoUser with creditLimit := 60, updatedAt := 5 } ∧
      s'.creditTransactions = demoState.creditTransactions ∧
      s'.searches = demoState.searches) :=
  ⟨(setLimit_validation demoState "u1" none 5).1 rfl,
   (setLimit_validation demoState "u1" (some (-3)) 5).2.1 (-3) rfl (by decide),
   (setLimit_validation demoState "u1" (some 60) 5).2.2 60 demoUser rfl (by decide) (by decide)⟩

/-- A concrete already-blocked regular user for the C10 witness. -/
def demoBlockedUser : User :=
  { id := "b1"
    email := "b1@maps.local"
    password := "hash-b"
    firstName := some "Bia"
    lastName := some "Reis"
    profileImageUrl := none
    role := Role.regular
    status := Status.blocked
    credits := 20
    creditLimit := 100
    createdAt := 0
    updatedAt := 0 }

/-- A concrete state holding just the blocked user. -/
def demoBlockedState : DBState :=
  { users := [demoBlockedUser], creditTransactions := [], searches := [] }

/-- An empty partial profile update used by the C10 witness. -/
def demoUpd : UpdateUserData :=
  { email := none
    firstName := some "Beatriz"
    lastName := none
    profileImageUrl := none
    role := none
    status := none
    credits := none
    creditLimit := none }

/-- C10: every user-row mutator — updateUser, updateUserPassword,
updateUserCredits, updateUserCreditLimit, blockUser, unblockUser — stamps the
row's updatedAt with the current time (also when the written values, such as
an already-blocked status, are unchanged). -/
theorem mutators_refresh_updatedAt (s : DBState) (uid : String) (u : User)
    (now : Nat) (d : UpdateUserData) (pw : String) (amount : Int)
    (adminId : String) (note : Option String) (txnId : String) (lim : Int)
    (hu : getUser s uid = some u) :
    (∃ u₁, getUser (updateUser s uid d now).2 uid = some u₁ ∧ u₁.updatedAt = now) ∧
    (∃ u₂, getUser (updateUserPassword s uid pw now) uid = some u₂ ∧ u₂.updatedAt = now) ∧
    (∃ r s' u₃, updateUserCredits s uid amount adminId note now txnId = Except.ok (r, s') ∧
      getUser s' uid = some u₃ ∧ u₃.updatedAt = now) ∧
    (∃ u₄, getUser (updateUserCreditLimit s uid lim now).2 uid = some u₄ ∧ u₄.updatedAt = now) ∧
    (∃ u₅, getUser (blockUser s uid now).2 uid = some u₅ ∧ u₅.updatedAt = now) ∧
    (∃ u₆, getUser (unblockUser s uid now).2 uid = some u₆ ∧ u₆.updatedAt = now) := by
  refine ⟨⟨applyUpdateUser d now u, ?_, rfl⟩,
          ⟨{ u with password := pw, updatedAt := now }, ?_, rfl⟩,
          ⟨some { u with credits := max 0 (u.credits + amount), updatedAt := now }, _,
            { u with credits := max 0 (u.credits + amount), updatedAt := now },
            updateUserCredits_ok s uid amount adminId note now txnId u hu, ?_, rfl⟩,
          ⟨{ u with creditLimit := lim, updatedAt := now }, ?_, rfl⟩,
          ⟨{ u with status := Status.blocked, updatedAt := now }, ?_, rfl⟩,
          ⟨{ u with status := Status.active, updatedAt := now }, ?_, rfl⟩⟩
  · exact find?_updateWhere_of_found uid (applyUpdateUser d now) (fun y => rfl) s.users u hu
  · exact find?_updateWhere_of_found uid (fun v => { v with password := pw, updatedAt := now }) (fun y => rfl) s.users u hu
  · exact find?_updateWhere_of_found uid (fun v => { v with credits := max 0 (u.credits + amount), updatedAt := now }) (fun y => rfl) s.users u hu
  · exact find?_updateWhere_of_found uid (fun v => { v with creditLimit := lim, updatedAt := now }) (fun y => rfl) s.users u hu
  · exact find?_updateWhere_of_found uid (fun v => { v with status := Status.blocked, updatedAt := now }) (fun y => rfl) s.users u hu
  · exact find?_updateWhere_of_found uid (fun v => { v with status := Status.active, updatedAt := now }) (fun y => rfl) s.users u hu

/-- Witness for C10 at an already-blocked user whose stored updatedAt is 0,
mutated at time 9: every mutator refreshes the timestamp, including blockUser
on the already-blocked row. -/
theorem mutators_refresh_updatedAt_witness :
    getUser demoBlockedState "b1" = some demoBlockedUser ∧
    ((∃ u₁, getUser (updateUser demoBlockedState "b1" demoUpd 9).2 "b1" = some u₁ ∧ u₁.updatedAt = 9) ∧
    (∃ u₂, getUser (updateUserPassword demoBlockedState "b1" "pw2" 9) "b1" = some u₂ ∧ u₂.updatedAt = 9) ∧
    (∃ r s' u₃, updateUserCredits demoBlockedState "b1" 5 "a1" none 9 "t9" = Except.ok (r, s') ∧
      getUser s' "b1" = some u₃ ∧ u₃.updatedAt = 9) ∧
    (∃ u₄, getUser (updateUserCreditLimit demoBlockedState "b1" 70 9).2 "b1" = some u₄ ∧ u₄.updatedAt = 9) ∧
    (∃ u₅, getUser (blockUser demoBlockedState "b1" 9).2 "b1" = some u₅ ∧ u₅.updatedAt = 9) ∧
    (∃ u₆, getUser (unblockUser demoBlockedState "b1" 9).2 "b1" = some u₆ ∧ u₆.updatedAt = 9)) :=
  ⟨by decide,
   mutators_refresh_updatedAt demoBlockedState "b1" demoBlockedUser 9 demoUpd "pw2" 5 "a1" none "t9" 70 (by decide)⟩

/-- C4: creating a user whose email is already registered (exact string
match, as stored) fails with the conflict error and returns the state
untouched: no User row inserted, no CreditTransaction created. -/
theorem createUser_duplicate_email_conflict (s : DBState) (d : CreateUserData)
    (hash : String → String) (newId : String) (now : Nat) (u : User)
    (hu : getUserByEmail s d.email = some u) :
    createUserRoute s d hash newId now = (Resp.err 400 "Email já cadastrado", s) := by
  unfold createUserRoute
  rw [hu]

/-- A create request reusing the demo user's registered email. -/
def demoDupReq : CreateUserData :=
  { email := "u1@maps.local"
    password := "secret77"
    firstName := "Novo"
    lastName := "Cliente"
    role := Role.regular
    credits := none }

/-- Witness for C4: the duplicate-email request against the demo state. -/
theorem createUser_duplicate_email_conflict_witness :
    getUserByEmail demoState demoDupReq.email = some demoUser ∧
    createUserRoute demoState demoDupReq (fun p => p) "u9" 10 =
      (Resp.err 400 "Email já cadastrado", demoState) :=
  ⟨by decide,
   createUser_duplicate_email_conflict demoState demoDupReq (fun p => p) "u9" 10 demoUser (by decide)⟩

/-- C5: the stats aggregate ranges over role-'regular' rows only; whenever
the state's regular rows are exactly two users with credits 10 and 20, one
blocked and one active, it returns totalUsers 2, activeUsers 1,
blockedUsers 1, totalCredits 30 — whatever admin rows the state also holds. -/
theorem getUserStats_regulars_only (s : DBState) (u₁ u₂ : User)
    (hreg : s.users.filter (fun u => decide (u.role = Role.regular)) = [u₁, u₂])
    (hc₁ : u₁.credits = 10) (hc₂ : u₂.credits = 20)
    (hstat : (u₁.status = Status.blocked ∧ u₂.status = Status.active) ∨
             (u₁.status = Status.active ∧ u₂.status = Status.blocked)) :
    getUserStats s =
      { totalUsers := 2, activeUsers := 1, blockedUsers := 1, totalCredits := 30 } := by
  unfold getUserStats
  rw [hreg]
  rcases hstat with ⟨h₁, h₂⟩ | ⟨h₁, h₂⟩ <;>
    simp [List.filter, List.foldl, h₁, h₂, hc₁, hc₂]

/-- A regular blocked user with 10 credits for the C5 witness. -/
def demoStatsBlocked : User :=
  { id := "s1"
    email := "s1@maps.local"
    password := "hash-1"
    firstName := none
    lastName := none
    profileImageUrl := none
    role := Role.regular
    status := Status.blocked
    credits := 10
    creditLimit := 100
    createdAt := 0
    updatedAt := 0 }

/-- A regular active user with 20 credits for the C5 witness. -/
def demoStatsActive : User :=
  { id := "s2"
    email := "s2@maps.local"
    password := "hash-2"
    firstName := none
    lastName := none
    profileImageUrl := none
    role := Role.regular
    status := Status.active
    credits := 20
    creditLimit := 100
    createdAt := 0
    updatedAt := 0 }

/-- One admin plus the two regular users of the stats scenario. -/
def demoStatsState : DBState :=
  { users := [demoAdmin, demoStatsBlocked, demoStatsActive]
    creditTransactions := []
    searches := [] }

/-- Witness for C5: the spec scenario with an admin row present. -/
theorem getUserStats_regulars_only_witness :
    demoStatsState.users.filter (fun u => decide (u.role = Role.regular)) =
      [demoStatsBlocked, demoStatsActive] ∧
    getUserStats demoStatsState =
      { totalUsers := 2, activeUsers := 1, blockedUsers := 1, totalCredits := 30 } :=
  ⟨by decide,
   getUserStats_regulars_only demoStatsState demoStatsBlocked demoStatsActive
     (by decide) (by decide) (by decide) (Or.inl ⟨by decide, by decide⟩)⟩

/-- Every payload built by mapping `sanitizeUser` over rows has no password. -/
theorem respSanitized_ok_map (c : Nat) (l : List User) :
    respSanitized (Resp.ok c (l.map sanitizeUser)) := by
  intro au hau
  rcases List.mem_map.mp hau with ⟨x, _, hx⟩
  rw [← hx]
  rfl

/-- C9: every response of the user-returning routes of shared/config.ts —
GET /api/user, POST /api/users, GET /api/users, PUT /api/users/:id, the
credits, credit-limit, block and unblock routes — carries user payloads with
the password field removed, on every input and state. -/
theorem routes_never_leak_password (reqUser : User) (s : DBState)
    (d : CreateUserData) (hash : String → String) (newId : String) (now : Nat)
    (uid : String) (du : UpdateUserData) (amountVal : Option Int)
    (note : Option String) (adminId : String) (txnId : String)
    (limitVal : Option Int) :
    respSanitized (getUserRoute reqUser) ∧
    respSanitized (createUserRoute s d hash newId now).1 ∧
    respSanitized (listUsersRoute s) ∧
    respSanitized (updateUserRoute s uid du now).1 ∧
    respSanitized (creditsRoute s uid amountVal note adminId now txnId).1 ∧
    respSanitized (creditLimitRoute s uid limitVal now).1 ∧
    respSanitized (blockRoute s uid now).1 ∧
    respSanitized (unblockRoute s uid now).1 := by
  refine ⟨?_, ?_, ?_, ?_, ?_, ?_, ?_, ?_⟩
  · exact respSanitized_ok_map 200 [reqUser]
  · unfold createUserRoute
    cases hm : getUserByEmail s d.email with
    | some u => exact trivial
    | none => exact respSanitized_ok_map 201 [(createUser s { d with password := hash d.password } newId now).1]
  · exact respSanitized_ok_map 200 (getRegularUsers s)
  · exact respSanitized_ok_map 200 (updateUser s uid du now).1.toList
  · unfold creditsRoute
    cases amountVal with
    | none => exact trivial
    | some amount =>
      dsimp only
      cases hm : updateUserCredits s uid amount adminId note now txnId with
      | error e => exact trivial
      | ok r => exact respSanitized_ok_map 200 r.1.toList
  · unfold creditLimitRoute
    cases limitVal with
    | none => exact trivial
    | some l =>
      dsimp only
      by_cases hl : l < 0
      · rw [if_pos hl]; exact trivial
      · rw [if_neg hl]
        exact respSanitized_ok_map 200 (updateUserCreditLimit s uid l now).1.toList
  · exact respSanitized_ok_map 200 (blockUser s uid now).1.toList
  · exact respSanitized_ok_map 200 (unblockUser s uid now).1.toList

/-- An insert-search body that explicitly sets finalizado. -/
def demoInsertSearch : InsertSearch :=
  { searchId := "ext-1"
    userId := "u1"
    address := "Av. Central, 100"
    segment := "padarias"
    creditsUsed := 5
    finalizado := some true }

/-- Counterexample for C8 as stated: when the caller's insert data carries an
explicit finalizado = true, the created Search row stores true, not false. -/
theorem createSearch_keeps_explicit_finalizado :
    (createSearch demoState demoInsertSearch "s1" 3).1.finalizado = true := by decide

/-- C8 (amended): the Search row is created with finalizado = false whenever
the caller's insert data omits finalizado — the schema column default — and
the call appends exactly that row. -/
theorem createSearch_default_finalizado (s : DBState) (d : InsertSearch)
    (newId : String) (now : Nat) (h : d.finalizado = none) :
    (createSearch s d newId now).1.finalizado = false ∧
    (createSearch s d newId now).2.searches = s.searches ++ [(createSearch s d newId now).1] := by
  refine ⟨?_, rfl⟩
  simp [createSearch, h]

/-- An insert-search body that omits finalizado, as every caller in the
repository does. -/
def demoInsertSearchDefault : InsertSearch :=
  { searchId := "ext-2"
    userId := "u1"
    address := "Rua Norte, 22"
    segment := "mercados"
    creditsUsed := 5
    finalizado := none }

/-- Witness for C8 (amended) at a concrete insert body without finalizado. -/
theorem createSearch_default_finalizado_witness :
    demoInsertSearchDefault.finalizado = none ∧
    ((createSearch demoState demoInsertSearchDefault "s2" 3).1.finalizado = false ∧
     (createSearch demoState demoInsertSearchDefault "s2" 3).2.searches =
       demoState.searches ++ [(createSearch demoState demoInsertSearchDefault "s2" 3).1]) :=
  ⟨rfl, createSearch_default_finalizado demoState demoInsertSearchDefault "s2" 3 rfl⟩

/-- A sequence of admin ledger adjustments applied in order, each one a full
`updateUserCredits` call (clock and transaction ids are irrelevant to the
replay claims and fixed at 0 and ""); a thrown "User not found" surfaces to
the caller leaving the state as it was. -/
def runAdjustments (uid aid : String) : DBState → List Int → DBState
  | s, [] => s
  | s, a :: rest =>
    match updateUserCredits s uid a aid none 0 "" with
    | Except.error _ => s
    | Except.ok r => runAdjustments uid aid r.2 rest

/-- Replay of an audit trail from a starting balance, applying
newBalance = max(0, previousBalance + amount) at each step. -/
def replayFrom (bal : Int) : List CreditTransaction → Int
  | [] => bal
  | t :: ts => replayFrom (max 0 (bal + t.amount)) ts

/-- Audit-chain check from a running balance: each transaction's
previousBalance equals the running balance (i.e. the prior transaction's
newBalance), and its newBalance is the clamped sum. -/
def chainedFrom (bal : Int) : List CreditTransaction → Bool
  | [] => true
  | t :: ts =>
    decide (t.previousBalance = bal) &&
    decide (t.newBalance = max 0 (bal + t.amount)) &&
    chainedFrom t.newBalance ts

/-- Running adjustments against an existing user only appends transactions of
that user, the appended rows chain from the starting balance, and their
replay lands on the user's final balance. -/
theorem runAdjustments_ledger (uid aid : String) :
    ∀ (adjs : List Int) (s : DBState) (u : User), getUser s uid = some u →
      ∃ u' ts,
        getUser (runAdjustments uid aid s adjs) uid = some u' ∧
        (runAdjustments uid aid s adjs).creditTransactions = s.creditTransactions ++ ts ∧
        ts.filter (fun t => t.userId == uid) = ts ∧
        chainedFrom u.credits ts = true ∧
        replayFrom u.credits ts = u'.credits := by
  intro adjs
  induction adjs with
  | nil =>
    intro s u hu
    exact ⟨u, [], hu, by simp [runAdjustments], rfl, rfl, rfl⟩
  | cons a rest ih =>
    intro s u hu
    have hok := updateUserCredits_ok s uid a aid none 0 "" u hu
    have hstep : runAdjustments uid aid s (a :: rest) =
        runAdjustments uid aid
          { users := updateWhere uid (fun v => { v with credits := max 0 (u.credits + a), updatedAt := 0 }) s.users
            creditTransactions := s.creditTransactions ++
              [{ id := ""
                 userId := uid
                 amount := a
                 previousBalance := u.credits
                 newBalance := max 0 (u.credits + a)
                 note := none
                 adminId := some aid
                 createdAt := 0 }]
            searches := s.searches } rest := by
      simp only [runAdjustments]
      rw [hok]
    have hu1 : getUser
        { users := updateWhere uid (fun v => { v with credits := max 0 (u.credits + a), updatedAt := 0 }) s.users
          creditTransactions := s.creditTransactions ++
            [{ id := ""
               userId := uid
               amount := a
               previousBalance := u.credits
               newBalance := max 0 (u.credits + a)
               note := none
               adminId := some aid
               createdAt := 0 }]
          searches := s.searches } uid =
        some { u with credits := max 0 (u.credits + a), updatedAt := 0 } :=
      find?_updateWhere_of_found uid
        (fun v => { v with credits := max 0 (u.credits + a), updatedAt := 0 })
        (fun y => rfl) s.users u hu
    obtain ⟨u', ts, h1, h2, h3, h4, h5⟩ := ih _ _ hu1
    refine ⟨u',
      { id := ""
        userId := uid
        amount := a
        previousBalance := u.credits
        newBalance := max 0 (u.credits + a)
        note := none
        adminId := some aid
        createdAt := 0 } :: ts, ?_, ?_, ?_, ?_, ?_⟩
    · rw [hstep]; exact h1
    · rw [hstep, h2]; simp
    · simp only [List.filter, beq_self_eq_true]
      rw [h3]
    · simp only [chainedFrom, Bool.and_eq_true, decide_eq_true_eq]
      exact ⟨⟨trivial, trivial⟩, h4⟩
    · simpa [replayFrom] using h5

/-- C3: for a user starting at credits 0 with no prior transactions,
replaying the recorded transactions in audit-trail order — applying
newBalance = max(0, previousBalance + amount) at each step — reproduces the
user's final balance, and consecutive transactions chain: each transaction's
previousBalance equals the prior transaction's newBalance. -/
theorem replay_reproduces_balance (s : DBState) (uid aid : String)
    (adjs : List Int) (u : User) (hu : getUser s uid = some u)
    (h0 : u.credits = 0)
    (hclean : s.creditTransactions.filter (fun t => t.userId == uid) = []) :
    ∃ u', getUser (runAdjustments uid aid s adjs) uid = some u' ∧
      replayFrom 0 (userTxns (runAdjustments uid aid s adjs) uid) = u'.credits ∧
      chainedFrom 0 (userTxns (runAdjustments uid aid s adjs) uid) = true := by
  obtain ⟨u', ts, h1, h2, h3, h4, h5⟩ := runAdjustments_ledger uid aid adjs s u hu
  have hutx : userTxns (runAdjustments uid aid s adjs) uid = ts := by
    unfold userTxns
    rw [h2, List.filter_append, hclean, h3]
    exact List.nil_append ts
  rw [hutx, ← h0]
  exact ⟨u', h1, h5, h4⟩

/-- A regular user starting from a zero balance. -/
def demoZeroUser : User :=
  { id := "z1"
    email := "z1@maps.local"
    password := "hash-z"
    firstName := none
    lastName := none
    profileImageUrl := none
    role := Role.regular
    status := Status.active
    credits := 0
    creditLimit := 100
    createdAt := 0
    updatedAt := 0 }

/-- State holding only the zero-balance user, with an empty ledger. -/
def demoZeroState : DBState :=
  { users := [demoZeroUser], creditTransactions := [], searches := [] }

/-- Witness for C3: three adjustments (+100, -30, -200, the last clamped)
replayed from 0. -/
theorem replay_reproduces_balance_witness :
    getUser demoZeroState "z1" = some demoZeroUser ∧
    demoZeroUser.credits = 0 ∧
    demoZeroState.creditTransactions.filter (fun t => t.userId == "z1") = [] ∧
    (∃ u', getUser (runAdjustments "z1" "a1" demoZeroState [100, -30, -200]) "z1" = some u' ∧
      replayFrom 0 (userTxns (runAdjustments "z1" "a1" demoZeroState [100, -30, -200]) "z1") = u'.credits ∧
      chainedFrom 0 (userTxns (runAdjustments "z1" "a1" demoZeroState [100, -30, -200]) "z1") = true) :=
  ⟨by decide, by decide, by decide,
   replay_reproduces_balance demoZeroState "z1" "a1" [100, -30, -200] demoZeroUser
     (by decide) (by decide) (by decide)⟩

/-- C2 evidence: `updateUserCredits` issues its balance UPDATE and its ledger
INSERT as two separate statements with no transaction wrapper: interrupting
the demo adjustment (credits 50, amount -80) after the first statement yields
a state — balance written to 0, no audit row — that is neither the initial
state nor the completed one, so the two writes are not one atomic unit. -/
theorem updateUserCredits_not_atomic :
    ∃ stmts, updateUserCreditsPlan demoState "u1" (-80) "a1" none 7 "t1" = some stmts ∧
      (getUser (execSteps stmts 1 demoState) "u1").map User.credits = some 0 ∧
      (execSteps stmts 1 demoState).creditTransactions = [] ∧
      execSteps stmts 1 demoState ≠ demoState ∧
      execSteps stmts 1 demoState ≠ execSteps stmts stmts.length demoState := by
  refine ⟨_, rfl, ?_, ?_, ?_, ?_⟩ <;> decide
